import Mathlib

/-!
# Verification of the VICE drive-image and VIC-I snapshot subsystems

Shallow embedding of `src/vice/src/drive/driveimage.c` and
`src/vice/src/vic20/vic-snapshot.c`.  The C enum constants
(`DISK_IMAGE_TYPE_*`, `DRIVE_TYPE_*`) live in headers outside the sampled
sources; they are modelled as inductive enumerations, which is faithful to
the C functions because those only compare the values for equality.
External collaborators (`disk_image_read_image`, `disk_image_write_p64_image`,
`drive_gcr_data_writeback`, the snapshot primitive reader/writer, the VIC
raster macros) are likewise not part of the sampled sources and are modelled
from the spec, as noted at each definition.
-/

set_option maxHeartbeats 1000000
set_option maxRecDepth 16384

namespace Vice

/-- Disk image formats (`DISK_IMAGE_TYPE_*` constants from `diskimage.h`,
not in the sampled sources).  `OTHER` stands for every `unsigned int`
value that is none of the named constants (including `DISK_IMAGE_TYPE_NONE`);
all such values take the `default` branch of every `switch` in
`driveimage.c`, so one constructor represents them faithfully. -/
inductive DiskImageType where
  | D64 | D67 | D71 | D80 | D81 | D82 | D90
  | D1M | D2M | D4M
  | G64 | G71 | P64 | X64 | DHD
  | OTHER
deriving DecidableEq, Repr, Fintype, Inhabited

/-- Drive models (`DRIVE_TYPE_*` constants from `drivetypes.h`, not in the
sampled sources).  `OTHER` stands for every other `unsigned int` value;
`drive_check_image_format` only compares `unit->type` against the named
constants with `!=`, so all unlisted values behave alike. -/
inductive DriveType where
  | T1540 | T1541 | T1541II | T1551 | T1570 | T1571 | T1571CR
  | T2031 | T2040 | T3040 | T4040
  | T1001 | T1581 | T8050 | T8250 | T9000
  | T2000 | T4000 | TCMDHD
  | NONE
  | OTHER
deriving DecidableEq, Repr, Fintype, Inhabited

open DiskImageType DriveType

/-- `drive_image_type_to_drive_type` (driveimage.c lines 45-74): pure
lookup from image format to a canonical drive model.  The C `switch` has
no `X64` case (even in `HAVE_X64_IMAGE` builds), so `X64` falls through to
`DRIVE_TYPE_NONE`. -/
def drive_image_type_to_drive_type (type : DiskImageType) : DriveType :=
  match type with
  | G64 | P64 | D64 => T1541II
  | G71 | D71 => T1571
  | D81 => T1581
  | D1M | D2M => T2000
  | D4M => T4000
  | D67 => T2040
  | D80 => T8050
  | D82 => T8250
  | D90 => T9000
  | DHD => TCMDHD
  | _ => DriveType.NONE

/-- `drive_check_image_format` (driveimage.c lines 76-166).  The C function
receives a unit number `dnr` and dereferences `diskunit_context[dnr]->type`;
here the dereferenced drive type of the unit is passed directly.  `hx64`
models the `HAVE_X64_IMAGE` build flag: when false, the `X64` case label is
absent and `X64` falls to the `default` branch. -/
def drive_check_image_format (hx64 : Bool) (format : DiskImageType)
    (unit_type : DriveType) : Int :=
  match format with
  | D64 | G64 | P64 =>
    if unit_type ≠ T1540 ∧ unit_type ≠ T1541 ∧ unit_type ≠ T1541II
        ∧ unit_type ≠ T1551 ∧ unit_type ≠ T1570 ∧ unit_type ≠ T1571
        ∧ unit_type ≠ T1571CR ∧ unit_type ≠ T2031 ∧ unit_type ≠ T2040
        ∧ unit_type ≠ T3040 ∧ unit_type ≠ T4040 then -1 else 0
  | X64 =>
    if hx64 then
      if unit_type ≠ T1540 ∧ unit_type ≠ T1541 ∧ unit_type ≠ T1541II
          ∧ unit_type ≠ T1551 ∧ unit_type ≠ T1570 ∧ unit_type ≠ T1571
          ∧ unit_type ≠ T1571CR ∧ unit_type ≠ T2031 ∧ unit_type ≠ T2040
          ∧ unit_type ≠ T3040 ∧ unit_type ≠ T4040 then -1 else 0
    else -1
  | G71 =>
    if unit_type ≠ T1571 ∧ unit_type ≠ T1571CR then -1 else 0
  | D67 =>
    if unit_type ≠ T1540 ∧ unit_type ≠ T1541 ∧ unit_type ≠ T1541II
        ∧ unit_type ≠ T1551 ∧ unit_type ≠ T1570 ∧ unit_type ≠ T1571
        ∧ unit_type ≠ T1571CR ∧ unit_type ≠ T2031 ∧ unit_type ≠ T2040
        ∧ unit_type ≠ T3040 ∧ unit_type ≠ T4040 then -1 else 0
  | D71 =>
    if unit_type ≠ T1571 ∧ unit_type ≠ T1571CR then -1 else 0
  | D81 =>
    if unit_type ≠ T1581 ∧ unit_type ≠ T2000 ∧ unit_type ≠ T4000 then -1 else 0
  | D80 | D82 =>
    if unit_type ≠ T1001 ∧ unit_type ≠ T8050 ∧ unit_type ≠ T8250 then -1 else 0
  | D90 =>
    if unit_type ≠ T9000 then -1 else 0
  | D1M | D2M | D4M =>
    if unit_type ≠ T2000 ∧ unit_type ≠ T4000 then -1 else 0
  | DHD =>
    if unit_type ≠ TCMDHD then -1 else 0
  | DiskImageType.OTHER => -1

/-- The compatibility table exactly as claim C1 states it (spec side, for
the refinement comparison with `drive_check_image_format`). -/
def c1_compat_table (format : DiskImageType) (model : DriveType) : Bool :=
  match format with
  | D64 | G64 | P64 | X64 | D67 =>
    model = T1540 ∨ model = T1541 ∨ model = T1541II ∨ model = T1551
      ∨ model = T1570 ∨ model = T1571 ∨ model = T1571CR ∨ model = T2031
      ∨ model = T2040 ∨ model = T3040 ∨ model = T4040
  | G71 | D71 => model = T1571 ∨ model = T1571CR
  | D81 => model = T1581 ∨ model = T2000 ∨ model = T4000
  | D80 | D82 => model = T1001 ∨ model = T8050 ∨ model = T8250
  | D90 => model = T9000
  | D1M | D2M | D4M => model = T2000 ∨ model = T4000
  | DHD => model = TCMDHD
  | DiskImageType.OTHER => false

/-- The format-to-drive-model lookup table exactly as claim C9 states it
(spec side). -/
def c9_lookup_table (format : DiskImageType) : DriveType :=
  match format with
  | D64 | G64 | P64 => T1541II
  | D71 | G71 => T1571
  | D81 => T1581
  | D1M | D2M => T2000
  | D4M => T4000
  | D67 => T2040
  | D80 => T8050
  | D82 => T8250
  | D90 => T9000
  | DHD => TCMDHD
  | X64 | DiskImageType.OTHER => DriveType.NONE

/-- `NUM_DISK_UNITS`: number of disk units on the peripheral bus.
Modelled from the spec: the constant lives in a header outside the sampled
sources; the spec gives bus addresses `8..8+N-1` (VICE uses 4).  None of the
claims depend on the exact value. -/
def NUM_DISK_UNITS : Nat := 4

/-- `MAX_GCR_TRACKS`: size of the per-drive track-buffer array.
Modelled from the spec: the constant lives in `gcr.h`, outside the sampled
sources; the claims only quantify over indices below it. -/
def MAX_GCR_TRACKS : Nat := 140

/-- `DRIVE_EXTEND_ASK`: the "ask the user" disk-extend policy value from
`drive.h` (outside the sampled sources).  Modelled from the spec; the exact
numeric value is immaterial, only that attach stores it. -/
def DRIVE_EXTEND_ASK : Nat := 1

/-- One GCR track buffer: `data` pointer (none = NULL) and `size`, as in
`gcr.h`'s per-track record used by the detach loop. -/
structure GcrTrack where
  data : Option (List Nat)
  size : Nat
deriving DecidableEq, Repr, Inhabited

/-- The drive-owned track buffer set (`gcr_t`): an array of
`MAX_GCR_TRACKS` tracks, modelled as a list. -/
structure GcrImage where
  tracks : List GcrTrack
deriving DecidableEq, Repr, Inhabited

/-- `disk_image_t` as used by `driveimage.c`: format tag, read-only flag,
and the back-references into the owning drive's `gcr`/`p64` buffers that
`drive_image_attach` wires up (`none` = NULL pointer; `some tok` models a
pointer into drive `tok = 2*dnr + drv`'s buffers). -/
structure disk_image where
  type : DiskImageType
  read_only : Bool
  gcr : Option Nat
  p64 : Option Nat
deriving DecidableEq, Repr, Inhabited

/-- `drive_t`, restricted to the fields `driveimage.c` reads or writes.
Flag fields are C ints used as booleans (set to 0/1 only). -/
structure drive_t where
  image : Option disk_image
  read_only : Bool
  attach_clk : Nat
  detach_clk : Nat
  attach_detach_clk : Nat
  ask_extend_disk_image : Nat
  GCR_image_loaded : Bool
  P64_image_loaded : Bool
  P64_dirty : Bool
  complicated_image_loaded : Bool
  current_half_track : Nat
  side : Nat
  gcr : GcrImage
deriving DecidableEq, Repr, Inhabited

/-- `diskunit_context_t`, restricted to the fields used here: the
configured drive model (`unit->type`) and the (up to two) drives. -/
structure diskunit_context where
  type : DriveType
  drives : List drive_t
deriving DecidableEq, Repr, Inhabited

/-- The global state touched by `driveimage.c`: the `diskunit_context[]`
array and the `diskunit_clk[]` clock array. -/
structure EmuState where
  units : List diskunit_context
  clk : List Nat
deriving DecidableEq, Repr, Inhabited

/-- Outcomes of the external collaborators of attach/detach.  Modelled from
the spec, which treats `disk_image_read_image` (populates the drive-owned
buffers from the file, may fail) and `disk_image_write_p64_image` (persists
P64 flux data, may fail) as out-of-scope side-effecting calls.  The
theorems quantify over all outcomes. -/
structure DiskExt where
  read_image_result : Int
  read_tracks : List GcrTrack
  write_p64_result : Int
deriving DecidableEq, Repr, Inhabited

/-- Observable external calls made by `drive_image_detach`, used to state
that the GCR write-back runs and that a failed P64 write-back is logged. -/
inductive DetachEv where
  | detachLog
  | p64Write
  | logWriteFail
  | gcrWriteback
deriving DecidableEq, Repr

/-- The drive slot `diskunit_context[dnr]->drives[drv]` of a state
(out-of-range indices read as a default slot, standing for the fixed-size C
arrays). -/
def driveAt (st : EmuState) (dnr drv : Nat) : drive_t :=
  (st.units.getD dnr default).drives.getD drv default

/-- Write drive slot `(dnr, drv)` back into the state. -/
def setDrive (st : EmuState) (dnr drv : Nat) (d : drive_t) : EmuState :=
  let u := st.units.getD dnr default
  { st with units := st.units.set dnr { u with drives := u.drives.set drv d } }

/-- The case set of the attach `switch` (driveimage.c lines 192-206) and of
the detach `switch` (lines 245-259), which list exactly the same formats:
D64, D67, D71, G64, G71, P64, and X64 when `HAVE_X64_IMAGE` is set. -/
def image_switch_known (hx64 : Bool) (t : DiskImageType) : Bool :=
  match t with
  | D64 | D67 | D71 | G64 | G71 | P64 => true
  | X64 => hx64
  | _ => false

/-- `drive_image_attach` (driveimage.c lines 169-227).  The final
`drive_set_half_track(drive->current_half_track, drive->side, drive)` call
is external to the sampled sources; modelled from the spec as an idempotent
re-seek to the current half-track, i.e. no change to the fields modelled
here. -/
def drive_image_attach (hx64 : Bool) (ext : DiskExt) (image : disk_image)
    (unit drv : Nat) (st : EmuState) : Int × EmuState :=
  if unit < 8 ∨ 8 + NUM_DISK_UNITS ≤ unit then (-1, st)
  else
    let dnr := unit - 8
    let u := st.units.getD dnr default
    let drive := u.drives.getD drv default
    if drive_check_image_format hx64 image.type u.type < 0 then (-1, st)
    else
      let clk := st.clk.getD dnr 0
      let drive := { drive with read_only := image.read_only, attach_clk := clk }
      let drive := if 0 < drive.detach_clk
        then { drive with attach_detach_clk := clk } else drive
      let drive := { drive with ask_extend_disk_image := DRIVE_EXTEND_ASK }
      if ¬ image_switch_known hx64 image.type then (-1, setDrive st dnr drv drive)
      else
        let image := { image with gcr := some (2 * dnr + drv), p64 := some (2 * dnr + drv) }
        let drive := { drive with image := some image }
        if ext.read_image_result < 0 then
          (-1, setDrive st dnr drv { drive with image := none })
        else
          let drive := { drive with gcr := ⟨ext.read_tracks⟩ }
          let drive := if image.type = P64
            then { drive with P64_image_loaded := true, P64_dirty := false }
            else { drive with GCR_image_loaded := true }
          let drive := { drive with complicated_image_loaded :=
            (image.type = P64 ∨ image.type = G64 ∨ image.type = G71) }
          (0, setDrive st dnr drv drive)

/-- One iteration of the detach free loop (driveimage.c lines 271-277):
free the buffer and zero the size only when a buffer is present. -/
def free_track (t : GcrTrack) : GcrTrack :=
  if t.data.isSome then { data := none, size := 0 } else t

/-- `drive_image_detach` (driveimage.c lines 230-286), instrumented with
the list of external calls it makes.  `drive_gcr_data_writeback` and the
final `drive_set_half_track` are external to the sampled sources; modelled
from the spec as opaque side-effecting operations that do not change the
fields modelled here. -/
def drive_image_detach (hx64 : Bool) (ext : DiskExt) (image : disk_image)
    (unit drv : Nat) (st : EmuState) : Int × EmuState × List DetachEv :=
  if unit < 8 ∨ 8 + NUM_DISK_UNITS ≤ unit then (-1, st, [])
  else
    let dnr := unit - 8
    let u := st.units.getD dnr default
    let drive := u.drives.getD drv default
    if drive.image.isSome ∧ ¬ image_switch_known hx64 image.type then (-1, st, [])
    else
      let evs := if drive.image.isSome then [DetachEv.detachLog] else []
      let step : drive_t × List DetachEv :=
        if drive.P64_image_loaded ∧ drive.P64_dirty then
          ({ drive with P64_dirty := false },
            evs ++ [DetachEv.p64Write]
              ++ (if ext.write_p64_result < 0 then [DetachEv.logWriteFail] else []))
        else (drive, evs ++ [DetachEv.gcrWriteback])
      let drive := step.1
      let drive := { drive with gcr := ⟨drive.gcr.tracks.map free_track⟩ }
      let drive := { drive with
        detach_clk := st.clk.getD dnr 0,
        GCR_image_loaded := false,
        P64_image_loaded := false,
        read_only := false,
        image := none }
      (0, setDrive st dnr drv drive, step.2)

/-- `getD` after `set`: the updated element is read back exactly when the
index hit an existing position. -/
theorem getD_set {α : Type} (l : List α) (i j : Nat) (a d : α) :
    (l.set i a).getD j d = if i = j ∧ j < l.length then a else l.getD j d := by
  induction l generalizing i j with
  | nil => simp
  | cons x xs ih =>
    cases i with
    | zero =>
      cases j with
      | zero => simp
      | succ j => simp
    | succ i =>
      cases j with
      | zero => simp
      | succ j =>
        show (x :: xs.set i a).getD (j + 1) d = _
        rw [List.getD_cons_succ, ih i j, List.getD_cons_succ, List.length_cons]
        by_cases h : i = j ∧ j < xs.length
        · rw [if_pos h, if_pos (by omega)]
        · rw [if_neg h, if_neg (by omega)]

/-- Writing an element's own value back leaves the list unchanged. -/
theorem set_getD_self {α : Type} (l : List α) (i : Nat) (d : α) :
    l.set i (l.getD i d) = l := by
  induction l generalizing i with
  | nil => rfl
  | cons x xs ih =>
    cases i with
    | zero => rfl
    | succ i =>
      show x :: xs.set i ((x :: xs).getD (i + 1) d) = x :: xs
      rw [List.getD_cons_succ, ih]

/-- Reading a drive slot after writing one. -/
theorem driveAt_setDrive (st : EmuState) (dnr drv : Nat) (d : drive_t)
    (dnr' drv' : Nat) :
    driveAt (setDrive st dnr drv d) dnr' drv' =
      if dnr = dnr' ∧ dnr' < st.units.length ∧ drv = drv'
          ∧ drv' < (st.units.getD dnr default).drives.length
      then d else driveAt st dnr' drv' := by
  show ((st.units.set dnr
      { st.units.getD dnr default with
        drives := (st.units.getD dnr default).drives.set drv d }).getD dnr'
          default).drives.getD drv' default = _
  rw [getD_set]
  by_cases h1 : dnr = dnr' ∧ dnr' < st.units.length
  · rw [if_pos h1]
    obtain ⟨h1a, h1b⟩ := h1
    subst h1a
    show ((st.units.getD dnr default).drives.set drv d).getD drv' default = _
    rw [getD_set]
    by_cases h2 : drv = drv' ∧ drv' < (st.units.getD dnr default).drives.length
    · rw [if_pos h2, if_pos ⟨rfl, h1b, h2.1, h2.2⟩]
    · rw [if_neg h2, if_neg (by tauto)]
      rfl
  · rw [if_neg h1, if_neg (by tauto)]
    rfl

/-- Writing a drive slot's own value back leaves the state unchanged. -/
theorem setDrive_self (st : EmuState) (dnr drv : Nat) :
    setDrive st dnr drv (driveAt st dnr drv) = st := by
  show EmuState.mk
      (st.units.set dnr
        (diskunit_context.mk (st.units.getD dnr default).type
          ((st.units.getD dnr default).drives.set drv
            ((st.units.getD dnr default).drives.getD drv default))))
      st.clk = st
  rw [set_getD_self, set_getD_self]

/-- An empty drive slot: nothing attached, all flags clear, all track
buffers released.  Used as concrete input by several witnesses. -/
def drive0 : drive_t where
  image := none
  read_only := false
  attach_clk := 0
  detach_clk := 0
  attach_detach_clk := 0
  ask_extend_disk_image := 0
  GCR_image_loaded := false
  P64_image_loaded := false
  P64_dirty := false
  complicated_image_loaded := false
  current_half_track := 36
  side := 0
  gcr := ⟨List.replicate MAX_GCR_TRACKS ⟨none, 0⟩⟩

/-- A bus with four units, each configured as a 1581 with two empty
drives, all unit clocks at 5. -/
def st1581 : EmuState :=
  ⟨List.replicate NUM_DISK_UNITS ⟨DriveType.T1581, [drive0, drive0]⟩,
    List.replicate NUM_DISK_UNITS 5⟩

/-- A D81 disk image descriptor. -/
def imgD81 : disk_image := ⟨DiskImageType.D81, false, none, none⟩

/-- External-call outcomes where everything succeeds: the image read
returns released buffers, the P64 write-back succeeds. -/
def ext_ok : DiskExt := ⟨0, List.replicate MAX_GCR_TRACKS ⟨none, 0⟩, 0⟩

/-- The part of a drive's attachment state that a failing
`drive_image_attach` really does leave alone: the loaded/dirty flags,
`detach_clk`, the track buffers, head position — and the image pointer up
to the read-failure path's reset to NULL. -/
def attach_preserved (a b : drive_t) : Prop :=
  a.GCR_image_loaded = b.GCR_image_loaded ∧
  a.P64_image_loaded = b.P64_image_loaded ∧
  a.P64_dirty = b.P64_dirty ∧
  a.complicated_image_loaded = b.complicated_image_loaded ∧
  a.detach_clk = b.detach_clk ∧
  a.gcr = b.gcr ∧
  a.current_half_track = b.current_half_track ∧
  a.side = b.side ∧
  (a.image = b.image ∨ a.image = none)

instance (a b : drive_t) : Decidable (attach_preserved a b) := by
  unfold attach_preserved; infer_instance

/-- `driveAt_setDrive` restated on the raw `getD` chain, matching the
access pattern that appears after unfolding attach/detach. -/
theorem units_getD_setDrive (st : EmuState) (dnr drv : Nat) (d : drive_t)
    (dnr' drv' : Nat) :
    ((setDrive st dnr drv d).units.getD dnr' default).drives.getD drv' default =
      if dnr = dnr' ∧ dnr' < st.units.length ∧ drv = drv'
          ∧ drv' < (st.units.getD dnr default).drives.length
      then d else (st.units.getD dnr' default).drives.getD drv' default :=
  driveAt_setDrive st dnr drv d dnr' drv'

/-- `setDrive` does not touch the clock array. -/
theorem setDrive_clk (st : EmuState) (dnr drv : Nat) (d : drive_t) :
    (setDrive st dnr drv d).clk = st.clk := rfl

/-- `setDrive` preserves the number of units. -/
theorem setDrive_units_length (st : EmuState) (dnr drv : Nat) (d : drive_t) :
    (setDrive st dnr drv d).units.length = st.units.length :=
  List.length_set st.units dnr _

/-- `setDrive` preserves the number of drives of the written unit. -/
theorem setDrive_getD_drives_length (st : EmuState) (dnr drv : Nat) (d : drive_t) :
    ((setDrive st dnr drv d).units.getD dnr default).drives.length
      = (st.units.getD dnr default).drives.length := by
  show ((st.units.set dnr
      { st.units.getD dnr default with
        drives := (st.units.getD dnr default).drives.set drv d }).getD dnr
      default).drives.length = _
  rw [getD_set]
  by_cases h : dnr < st.units.length
  · rw [if_pos ⟨rfl, h⟩]
    exact List.length_set _ drv _
  · rw [if_neg (by tauto)]

/-- `setDrive_getD_drives_length` restated for in-bounds `getElem`
access, the normal form simp produces. -/
theorem setDrive_getElem_drives_length (st : EmuState) (dnr drv : Nat)
    (d : drive_t) (h : dnr < (setDrive st dnr drv d).units.length) :
    ((setDrive st dnr drv d).units[dnr]).drives.length
      = (st.units.getD dnr default).drives.length := by
  rw [← List.getD_eq_getElem _ default h, setDrive_getD_drives_length]

/-- Reading back the drive slot just written. -/
theorem driveAt_setDrive_self (st : EmuState) (dnr drv : Nat) (d : drive_t)
    (h1 : dnr < st.units.length)
    (h2 : drv < (st.units.getD dnr default).drives.length) :
    driveAt (setDrive st dnr drv d) dnr drv = d := by
  rw [driveAt_setDrive]
  exact if_pos ⟨rfl, h1, rfl, h2⟩

/-- Reading back the drive slot just written, stated for in-bounds
`getElem` access. -/
theorem getElem_setDrive_self (st : EmuState) (dnr drv : Nat) (d : drive_t)
    (ha : dnr < (setDrive st dnr drv d).units.length)
    (hb : drv < ((setDrive st dnr drv d).units[dnr]).drives.length) :
    ((setDrive st dnr drv d).units[dnr]).drives[drv] = d := by
  have h1 : dnr < st.units.length := by
    rw [setDrive_units_length] at ha; exact ha
  have h2 : drv < (st.units.getD dnr default).drives.length := by
    have hlen := setDrive_getElem_drives_length st dnr drv d ha
    rw [hlen] at hb; exact hb
  have hself := driveAt_setDrive_self st dnr drv d h1 h2
  unfold driveAt at hself
  rw [List.getD_eq_getElem _ default ha, List.getD_eq_getElem _ default hb]
    at hself
  exact hself


/-- After the detach free loop, every track slot (existing or out of
range) reports a released buffer of size 0, provided the input tracks are
well formed (no size without a buffer). -/
theorem freed_tracks_ok (l : List GcrTrack)
    (h : ∀ t ∈ l, t.data = none → t.size = 0) (i : Nat) :
    ((l.map free_track).getD i default).data = none ∧
      ((l.map free_track).getD i default).size = 0 := by
  induction l generalizing i with
  | nil => exact ⟨rfl, rfl⟩
  | cons t ts ih =>
    cases i with
    | zero =>
      show (free_track t).data = none ∧ (free_track t).size = 0
      unfold free_track
      cases hd : t.data with
      | some v => simp
      | none => simp [hd, h t (by simp) hd]
    | succ i => exact ih (fun t' ht' h' => h t' (List.mem_cons_of_mem t ht') h') i

/-- `freed_tracks_ok` restated in the `getElem?` normal form that `simp`
produces for list indexing. -/
theorem freed_tracks_ok' (l : List GcrTrack)
    (h : ∀ t ∈ l, t.data = none → t.size = 0) (i : Nat) :
    ((Option.map free_track l[i]?).getD default).data = none ∧
      ((Option.map free_track l[i]?).getD default).size = 0 := by
  have hfr := freed_tracks_ok l h i
  simpa using hfr

/-- Freeing an already-freed track changes nothing. -/
theorem free_track_idem (t : GcrTrack) : free_track (free_track t) = free_track t := by
  unfold free_track
  cases hd : t.data <;> simp [hd]

/-- The detach free loop is idempotent on the whole track array. -/
theorem map_free_track_idem (l : List GcrTrack) :
    (l.map free_track).map free_track = l.map free_track := by
  induction l with
  | nil => rfl
  | cons t ts ih => simp only [List.map_cons, free_track_idem, ih]

end Vice

namespace Vice

/-- C1: `drive_check_image_format` (with `HAVE_X64_IMAGE` enabled, as the
claim's table lists `X64`) returns 0 exactly on the pairs of the fixed
compatibility table, and -1 on every other (format, drive model) pair. -/
theorem drive_check_image_format_matches_table :
    ∀ (format : DiskImageType) (model : DriveType),
      drive_check_image_format true format model =
        (if c1_compat_table format model then 0 else -1) := by
  intro format model
  cases format <;> cases model <;> rfl

/-- C9: `drive_image_type_to_drive_type` is the pure lookup stated by the
claim, returning `DRIVE_TYPE_NONE` for every format outside the list. -/
theorem drive_image_type_to_drive_type_matches_table :
    ∀ format : DiskImageType,
      drive_image_type_to_drive_type format = c9_lookup_table format := by
  intro format
  cases format <;> rfl

/-- C2 counterexample: attaching a D81 image to unit 8 configured as a 1581
passes the compatibility check but hits the attach switch's `default`
branch.  The call fails with -1, yet the drive's `attach_clk` has already
been stamped with the unit clock (5) where it was 0 before the call — the
attachment state is not fully rolled back. -/
theorem drive_image_attach_no_full_rollback :
    (drive_image_attach true ext_ok imgD81 8 0 st1581).1 = -1 ∧
    (driveAt st1581 0 0).attach_clk = 0 ∧
    (driveAt (drive_image_attach true ext_ok imgD81 8 0 st1581).2 0 0).attach_clk = 5 ∧
    (driveAt (drive_image_attach true ext_ok imgD81 8 0 st1581).2 0 0).ask_extend_disk_image
      ≠ (driveAt st1581 0 0).ask_extend_disk_image := by
  refine ⟨rfl, rfl, rfl, ?_⟩
  decide

/-- C2 amended: a failing `drive_image_attach` leaves the drive's loaded
flags, dirty flag, `complicated_image_loaded`, `detach_clk`, track buffers
and head position unchanged, and its image pointer is either unchanged or
reset to NULL; the state is unchanged in full only when the failure comes
from the unit-range check or the format-compatibility check.  (On the
attach-switch-default and read-failure paths, `read_only`, `attach_clk`,
`attach_detach_clk` and `ask_extend_disk_image` have already been
mutated.) -/
theorem drive_image_attach_failure_partial_rollback
    (hx64 : Bool) (ext : DiskExt) (image : disk_image) (unit drv : Nat)
    (st : EmuState)
    (h : (drive_image_attach hx64 ext image unit drv st).1 = -1) :
    attach_preserved
      (driveAt (drive_image_attach hx64 ext image unit drv st).2 (unit - 8) drv)
      (driveAt st (unit - 8) drv) ∧
    (drive_check_image_format hx64 image.type
        (st.units.getD (unit - 8) default).type < 0 →
      (drive_image_attach hx64 ext image unit drv st).2 = st) ∧
    ((unit < 8 ∨ 8 + NUM_DISK_UNITS ≤ unit) →
      (drive_image_attach hx64 ext image unit drv st).2 = st) := by
  by_cases hrange : unit < 8 ∨ 8 + NUM_DISK_UNITS ≤ unit
  · simp only [drive_image_attach, if_pos hrange]
    refine ⟨⟨rfl, rfl, rfl, rfl, rfl, rfl, rfl, rfl, Or.inl rfl⟩, ?_, ?_⟩ <;>
      first
        | trivial
        | exact fun _ => trivial
        | exact fun _ => rfl
  by_cases hchk : drive_check_image_format hx64 image.type
      (st.units.getD (unit - 8) default).type < 0
  · simp only [drive_image_attach, if_neg hrange, if_pos hchk]
    refine ⟨⟨rfl, rfl, rfl, rfl, rfl, rfl, rfl, rfl, Or.inl rfl⟩, ?_, ?_⟩ <;>
      first
        | trivial
        | exact fun _ => trivial
        | exact fun _ => rfl
        | exact fun hr => absurd hr hrange
  by_cases hknown : image_switch_known hx64 image.type = true
  · by_cases hread : ext.read_image_result < 0
    · simp only [drive_image_attach, if_neg hrange, if_neg hchk]
      rw [if_neg (not_not_intro hknown), if_pos hread]
      refine ⟨?_, fun hc => absurd hc hchk, fun hr => absurd hr hrange⟩
      rw [driveAt_setDrive]
      split
      · by_cases hdc : 0 < ((st.units.getD (unit - 8) default).drives.getD
            drv default).detach_clk
        · simp only [if_pos hdc]
          exact ⟨rfl, rfl, rfl, rfl, rfl, rfl, rfl, rfl, Or.inr rfl⟩
        · simp only [if_neg hdc]
          exact ⟨rfl, rfl, rfl, rfl, rfl, rfl, rfl, rfl, Or.inr rfl⟩
      · exact ⟨rfl, rfl, rfl, rfl, rfl, rfl, rfl, rfl, Or.inl rfl⟩
    · exfalso
      simp only [drive_image_attach, if_neg hrange, if_neg hchk] at h
      rw [if_neg (not_not_intro hknown), if_neg hread] at h
      have h0 : (0 : Int) = -1 := h
      exact absurd h0 (by decide)
  · simp only [drive_image_attach, if_neg hrange, if_neg hchk]
    rw [if_pos hknown]
    refine ⟨?_, fun hc => absurd hc hchk, fun hr => absurd hr hrange⟩
    rw [driveAt_setDrive]
    split
    · by_cases hdc : 0 < ((st.units.getD (unit - 8) default).drives.getD
          drv default).detach_clk
      · simp only [if_pos hdc]
        exact ⟨rfl, rfl, rfl, rfl, rfl, rfl, rfl, rfl, Or.inl rfl⟩
      · simp only [if_neg hdc]
        exact ⟨rfl, rfl, rfl, rfl, rfl, rfl, rfl, rfl, Or.inl rfl⟩
    · exact ⟨rfl, rfl, rfl, rfl, rfl, rfl, rfl, rfl, Or.inl rfl⟩

/-- Witness for the amended C2 at the concrete failing input of the
counterexample (D81 to a 1581 unit, switch-default failure path). -/
theorem drive_image_attach_failure_partial_rollback_witness :
    attach_preserved
      (driveAt (drive_image_attach true ext_ok imgD81 8 0 st1581).2 (8 - 8) 0)
      (driveAt st1581 (8 - 8) 0) ∧
    (drive_check_image_format true imgD81.type
        (st1581.units.getD (8 - 8) default).type < 0 →
      (drive_image_attach true ext_ok imgD81 8 0 st1581).2 = st1581) ∧
    ((8 < 8 ∨ 8 + NUM_DISK_UNITS ≤ 8) →
      (drive_image_attach true ext_ok imgD81 8 0 st1581).2 = st1581) :=
  drive_image_attach_failure_partial_rollback true ext_ok imgD81 8 0 st1581 rfl

/-- C3: starting from a detached (empty) drive, a successful
`drive_image_attach(image, unit, 0)` sets exactly one loaded flag
(`P64_image_loaded` iff the format is P64, `GCR_image_loaded` otherwise)
and `complicated_image_loaded` iff the format is P64/G64/G71; the
subsequent `drive_image_detach` returns 0, clears both loaded flags,
clears the image reference, and leaves every one of the `MAX_GCR_TRACKS`
track buffers released with its size set to 0. -/
theorem drive_image_attach_detach_roundtrip
    (hx64 : Bool) (ext ext2 : DiskExt) (image : disk_image) (unit : Nat)
    (st : EmuState)
    (hidx : unit - 8 < st.units.length
      ∧ 0 < (st.units.getD (unit - 8) default).drives.length)
    (hGe : (driveAt st (unit - 8) 0).GCR_image_loaded = false)
    (hPe : (driveAt st (unit - 8) 0).P64_image_loaded = false)
    (hwf : ∀ t ∈ ext.read_tracks, t.data = none → t.size = 0)
    (hok : (drive_image_attach hx64 ext image unit 0 st).1 = 0) :
    ((driveAt (drive_image_attach hx64 ext image unit 0 st).2
        (unit - 8) 0).P64_image_loaded = true ↔ image.type = DiskImageType.P64) ∧
    ((driveAt (drive_image_attach hx64 ext image unit 0 st).2
        (unit - 8) 0).GCR_image_loaded = true ↔ image.type ≠ DiskImageType.P64) ∧
    ((driveAt (drive_image_attach hx64 ext image unit 0 st).2
        (unit - 8) 0).complicated_image_loaded = true ↔
      (image.type = DiskImageType.P64 ∨ image.type = DiskImageType.G64
        ∨ image.type = DiskImageType.G71)) ∧
    (drive_image_detach hx64 ext2 image unit 0
      (drive_image_attach hx64 ext image unit 0 st).2).1 = 0 ∧
    (driveAt (drive_image_detach hx64 ext2 image unit 0
        (drive_image_attach hx64 ext image unit 0 st).2).2.1
      (unit - 8) 0).GCR_image_loaded = false ∧
    (driveAt (drive_image_detach hx64 ext2 image unit 0
        (drive_image_attach hx64 ext image unit 0 st).2).2.1
      (unit - 8) 0).P64_image_loaded = false ∧
    (driveAt (drive_image_detach hx64 ext2 image unit 0
        (drive_image_attach hx64 ext image unit 0 st).2).2.1
      (unit - 8) 0).image = none ∧
    (∀ i, i < MAX_GCR_TRACKS →
      ((driveAt (drive_image_detach hx64 ext2 image unit 0
          (drive_image_attach hx64 ext image unit 0 st).2).2.1
        (unit - 8) 0).gcr.tracks.getD i default).data = none ∧
      ((driveAt (drive_image_detach hx64 ext2 image unit 0
          (drive_image_attach hx64 ext image unit 0 st).2).2.1
        (unit - 8) 0).gcr.tracks.getD i default).size = 0) := by
  simp only [driveAt] at hGe hPe
  by_cases hrange : unit < 8 ∨ 8 + NUM_DISK_UNITS ≤ unit
  · exfalso
    simp only [drive_image_attach, if_pos hrange] at hok
    have h0 : (-1 : Int) = 0 := hok
    exact absurd h0 (by decide)
  by_cases hchk : drive_check_image_format hx64 image.type
      (st.units.getD (unit - 8) default).type < 0
  · exfalso
    simp only [drive_image_attach, if_neg hrange, if_pos hchk] at hok
    have h0 : (-1 : Int) = 0 := hok
    exact absurd h0 (by decide)
  by_cases hknown : image_switch_known hx64 image.type = true
  swap
  · exfalso
    simp only [drive_image_attach, if_neg hrange, if_neg hchk] at hok
    rw [if_pos hknown] at hok
    have h0 : (-1 : Int) = 0 := hok
    exact absurd h0 (by decide)
  by_cases hread : ext.read_image_result < 0
  · exfalso
    simp only [drive_image_attach, if_neg hrange, if_neg hchk] at hok
    rw [if_neg (not_not_intro hknown), if_pos hread] at hok
    have h0 : (-1 : Int) = 0 := hok
    exact absurd h0 (by decide)
  simp only [drive_image_attach, if_neg hrange, if_neg hchk]
  rw [if_neg (not_not_intro hknown), if_neg hread]
  have h1 : unit - 8 < st.units.length := hidx.1
  have hu : st.units.getD (unit - 8) default = st.units[unit - 8] :=
    List.getD_eq_getElem st.units default h1
  rw [hu] at hGe hPe
  have hlen2 : 0 < st.units[unit - 8].drives.length := by
    rw [← hu]; exact hidx.2
  have hg2 : st.units[unit - 8].drives.getD 0 default = st.units[unit - 8].drives[0] :=
    List.getD_eq_getElem _ _ hlen2
  rw [hg2] at hGe hPe
  by_cases htype : image.type = DiskImageType.P64
  · have hknown' : image_switch_known hx64 DiskImageType.P64 = true := htype ▸ hknown
    by_cases hdc : 0 < ((st.units.getD (unit - 8) default).drives.getD
        0 default).detach_clk
    · simp only [if_pos htype, if_pos hdc]
      simp only [driveAt_setDrive, drive_image_detach, if_neg hrange,
        setDrive_clk, units_getD_setDrive]
      simp [htype, hGe, hPe, hknown, hknown', h1, hu, hlen2, hg2,
        driveAt_setDrive, driveAt_setDrive_self, setDrive_units_length,
        setDrive_getD_drives_length, setDrive_getElem_drives_length,
        getD_set, List.length_set,
        freed_tracks_ok ext.read_tracks hwf, freed_tracks_ok' ext.read_tracks hwf]
    · simp only [if_pos htype, if_neg hdc]
      simp only [driveAt_setDrive, drive_image_detach, if_neg hrange,
        setDrive_clk, units_getD_setDrive]
      simp [htype, hGe, hPe, hknown, hknown', h1, hu, hlen2, hg2,
        driveAt_setDrive, driveAt_setDrive_self, setDrive_units_length,
        setDrive_getD_drives_length, setDrive_getElem_drives_length,
        getD_set, List.length_set,
        freed_tracks_ok ext.read_tracks hwf, freed_tracks_ok' ext.read_tracks hwf]
  · by_cases hdc : 0 < ((st.units.getD (unit - 8) default).drives.getD
        0 default).detach_clk
    · simp only [if_neg htype, if_pos hdc]
      simp only [driveAt_setDrive, drive_image_detach, if_neg hrange,
        setDrive_clk, units_getD_setDrive]
      simp [htype, hGe, hPe, hknown, h1, hu, hlen2, hg2,
        driveAt_setDrive, driveAt_setDrive_self, setDrive_units_length,
        setDrive_getD_drives_length, setDrive_getElem_drives_length,
        getD_set, List.length_set,
        freed_tracks_ok ext.read_tracks hwf, freed_tracks_ok' ext.read_tracks hwf]
    · simp only [if_neg htype, if_neg hdc]
      simp only [driveAt_setDrive, drive_image_detach, if_neg hrange,
        setDrive_clk, units_getD_setDrive]
      simp [htype, hGe, hPe, hknown, h1, hu, hlen2, hg2,
        driveAt_setDrive, driveAt_setDrive_self, setDrive_units_length,
        setDrive_getD_drives_length, setDrive_getElem_drives_length,
        getD_set, List.length_set,
        freed_tracks_ok ext.read_tracks hwf, freed_tracks_ok' ext.read_tracks hwf]

/-- A D64 disk image descriptor. -/
def imgD64 : disk_image := ⟨DiskImageType.D64, false, none, none⟩

/-- A P64 disk image descriptor. -/
def imgP64 : disk_image := ⟨DiskImageType.P64, false, none, none⟩

/-- A bus with four units configured as 1541-II, two empty drives each,
clocks at 5. -/
def st1541 : EmuState :=
  ⟨List.replicate NUM_DISK_UNITS ⟨DriveType.T1541II, [drive0, drive0]⟩,
    List.replicate NUM_DISK_UNITS 5⟩

/-- A drive with a dirty P64 image loaded and populated track buffers. -/
def driveP64 : drive_t :=
  { drive0 with
    image := some imgP64
    P64_image_loaded := true
    P64_dirty := true
    gcr := ⟨List.replicate MAX_GCR_TRACKS ⟨some [1, 2], 2⟩⟩ }

/-- A bus whose unit 8 has a dirty P64 image loaded in drive 0. -/
def stP64 : EmuState :=
  ⟨List.replicate NUM_DISK_UNITS ⟨DriveType.T1541II, [driveP64, drive0]⟩,
    List.replicate NUM_DISK_UNITS 7⟩

/-- External-call outcomes where the P64 write-back fails. -/
def ext_fail : DiskExt := ⟨0, [], -1⟩

/-- Witness for C3 at a concrete input: a D64 image attached to a 1541-II
unit and detached again. -/
theorem drive_image_attach_detach_roundtrip_witness :
    ((driveAt (drive_image_attach true ext_ok imgD64 8 0 st1541).2
        (8 - 8) 0).GCR_image_loaded = true ↔ imgD64.type ≠ DiskImageType.P64) ∧
    (drive_image_detach true ext_ok imgD64 8 0
      (drive_image_attach true ext_ok imgD64 8 0 st1541).2).1 = 0 :=
  ⟨(drive_image_attach_detach_roundtrip true ext_ok ext_ok imgD64 8 st1541
      (by decide) (by decide) (by decide) (by decide) (by decide)).2.1,
    (drive_image_attach_detach_roundtrip true ext_ok ext_ok imgD64 8 st1541
      (by decide) (by decide) (by decide) (by decide) (by decide)).2.2.2.1⟩

/-- C6: detaching a drive whose P64 image is loaded and dirty while the
write-back call fails still returns 0; the dirty flag is cleared, the
attempted write and the failure log are observable (logged, not fatal),
`P64_image_loaded` becomes false, the image reference is cleared, and all
track buffers are freed with size 0. -/
theorem drive_image_detach_p64_write_fail
    (hx64 : Bool) (ext : DiskExt) (image : disk_image) (unit drv : Nat)
    (st : EmuState)
    (hrange : ¬(unit < 8 ∨ 8 + NUM_DISK_UNITS ≤ unit))
    (hidx : unit - 8 < st.units.length
      ∧ drv < (st.units.getD (unit - 8) default).drives.length)
    (hP64 : (driveAt st (unit - 8) drv).P64_image_loaded = true)
    (hdirty : (driveAt st (unit - 8) drv).P64_dirty = true)
    (himg : (driveAt st (unit - 8) drv).image.isSome = true)
    (hknown : image_switch_known hx64 image.type = true)
    (hfail : ext.write_p64_result < 0)
    (hwf : ∀ t ∈ (driveAt st (unit - 8) drv).gcr.tracks,
      t.data = none → t.size = 0) :
    (drive_image_detach hx64 ext image unit drv st).1 = 0 ∧
    DetachEv.p64Write ∈ (drive_image_detach hx64 ext image unit drv st).2.2 ∧
    DetachEv.logWriteFail ∈ (drive_image_detach hx64 ext image unit drv st).2.2 ∧
    (driveAt (drive_image_detach hx64 ext image unit drv st).2.1
      (unit - 8) drv).P64_dirty = false ∧
    (driveAt (drive_image_detach hx64 ext image unit drv st).2.1
      (unit - 8) drv).P64_image_loaded = false ∧
    (driveAt (drive_image_detach hx64 ext image unit drv st).2.1
      (unit - 8) drv).GCR_image_loaded = false ∧
    (driveAt (drive_image_detach hx64 ext image unit drv st).2.1
      (unit - 8) drv).image = none ∧
    (∀ i, i < MAX_GCR_TRACKS →
      ((driveAt (drive_image_detach hx64 ext image unit drv st).2.1
        (unit - 8) drv).gcr.tracks.getD i default).data = none ∧
      ((driveAt (drive_image_detach hx64 ext image unit drv st).2.1
        (unit - 8) drv).gcr.tracks.getD i default).size = 0) := by
  simp only [driveAt] at hP64 hdirty himg hwf
  have h1 : unit - 8 < st.units.length := hidx.1
  have hu : st.units.getD (unit - 8) default = st.units[unit - 8] :=
    List.getD_eq_getElem st.units default h1
  have hlen2 : drv < st.units[unit - 8].drives.length := by
    rw [← hu]; exact hidx.2
  have hg2 : st.units[unit - 8].drives.getD drv default
      = st.units[unit - 8].drives[drv] := List.getD_eq_getElem _ _ hlen2
  rw [hu, hg2] at hP64 hdirty himg hwf
  simp only [drive_image_detach, if_neg hrange]
  simp [hP64, hdirty, himg, hknown, hfail, h1, hu, hlen2, hg2,
    driveAt_setDrive, driveAt_setDrive_self, setDrive_units_length,
    setDrive_getD_drives_length, setDrive_getElem_drives_length, getD_set,
    List.length_set, setDrive_clk, getElem_setDrive_self,
    freed_tracks_ok _ hwf, freed_tracks_ok' _ hwf]

/-- Witness for C6: unit 8 drive 0 holds a dirty P64 image, the write-back
is made to fail, detach still succeeds and tears everything down. -/
theorem drive_image_detach_p64_write_fail_witness :
    (drive_image_detach true ext_fail imgP64 8 0 stP64).1 = 0 ∧
    DetachEv.p64Write ∈ (drive_image_detach true ext_fail imgP64 8 0 stP64).2.2 ∧
    DetachEv.logWriteFail ∈ (drive_image_detach true ext_fail imgP64 8 0 stP64).2.2 ∧
    (driveAt (drive_image_detach true ext_fail imgP64 8 0 stP64).2.1
      (8 - 8) 0).P64_dirty = false ∧
    (driveAt (drive_image_detach true ext_fail imgP64 8 0 stP64).2.1
      (8 - 8) 0).P64_image_loaded = false ∧
    (driveAt (drive_image_detach true ext_fail imgP64 8 0 stP64).2.1
      (8 - 8) 0).GCR_image_loaded = false ∧
    (driveAt (drive_image_detach true ext_fail imgP64 8 0 stP64).2.1
      (8 - 8) 0).image = none ∧
    (∀ i, i < MAX_GCR_TRACKS →
      ((driveAt (drive_image_detach true ext_fail imgP64 8 0 stP64).2.1
        (8 - 8) 0).gcr.tracks.getD i default).data = none ∧
      ((driveAt (drive_image_detach true ext_fail imgP64 8 0 stP64).2.1
        (8 - 8) 0).gcr.tracks.getD i default).size = 0) :=
  drive_image_detach_p64_write_fail true ext_fail imgP64 8 0 stP64
    (by decide) (by decide) (by decide) (by decide) (by decide) (by decide)
    (by decide) (by decide)

/-- C10: detaching a drive whose image pointer is already NULL skips the
defensive format check (no detach notification, success for an arbitrary
image argument, even one of a format the switch does not know), still runs
the GCR write-back and the full teardown (buffers freed with size 0,
`detach_clk` stamped, flags and `read_only` cleared, image still NULL),
returns 0, and doing it again leaves the drive unchanged. -/
theorem drive_image_detach_empty_idempotent
    (hx64 : Bool) (ext : DiskExt) (image : disk_image) (unit drv : Nat)
    (st : EmuState)
    (hrange : ¬(unit < 8 ∨ 8 + NUM_DISK_UNITS ≤ unit))
    (hidx : unit - 8 < st.units.length
      ∧ drv < (st.units.getD (unit - 8) default).drives.length)
    (hempty : (driveAt st (unit - 8) drv).image = none)
    (hP : (driveAt st (unit - 8) drv).P64_image_loaded = false)
    (hwf : ∀ t ∈ (driveAt st (unit - 8) drv).gcr.tracks,
      t.data = none → t.size = 0) :
    (drive_image_detach hx64 ext image unit drv st).1 = 0 ∧
    DetachEv.detachLog ∉ (drive_image_detach hx64 ext image unit drv st).2.2 ∧
    DetachEv.gcrWriteback ∈ (drive_image_detach hx64 ext image unit drv st).2.2 ∧
    (driveAt (drive_image_detach hx64 ext image unit drv st).2.1
      (unit - 8) drv).detach_clk = st.clk.getD (unit - 8) 0 ∧
    (driveAt (drive_image_detach hx64 ext image unit drv st).2.1
      (unit - 8) drv).GCR_image_loaded = false ∧
    (driveAt (drive_image_detach hx64 ext image unit drv st).2.1
      (unit - 8) drv).P64_image_loaded = false ∧
    (driveAt (drive_image_detach hx64 ext image unit drv st).2.1
      (unit - 8) drv).read_only = false ∧
    (driveAt (drive_image_detach hx64 ext image unit drv st).2.1
      (unit - 8) drv).image = none ∧
    (∀ i, i < MAX_GCR_TRACKS →
      ((driveAt (drive_image_detach hx64 ext image unit drv st).2.1
        (unit - 8) drv).gcr.tracks.getD i default).data = none ∧
      ((driveAt (drive_image_detach hx64 ext image unit drv st).2.1
        (unit - 8) drv).gcr.tracks.getD i default).size = 0) ∧
    (drive_image_detach hx64 ext image unit drv
      (drive_image_detach hx64 ext image unit drv st).2.1).1 = 0 ∧
    driveAt (drive_image_detach hx64 ext image unit drv
        (drive_image_detach hx64 ext image unit drv st).2.1).2.1 (unit - 8) drv
      = driveAt (drive_image_detach hx64 ext image unit drv st).2.1
        (unit - 8) drv := by
  simp only [driveAt] at hempty hP hwf
  have h1 : unit - 8 < st.units.length := hidx.1
  have hu : st.units.getD (unit - 8) default = st.units[unit - 8] :=
    List.getD_eq_getElem st.units default h1
  have hlen2 : drv < st.units[unit - 8].drives.length := by
    rw [← hu]; exact hidx.2
  have hg2 : st.units[unit - 8].drives.getD drv default
      = st.units[unit - 8].drives[drv] := List.getD_eq_getElem _ _ hlen2
  rw [hu, hg2] at hempty hP hwf
  simp only [drive_image_detach, if_neg hrange]
  simp [hempty, hP, h1, hu, hlen2, hg2,
    driveAt_setDrive, driveAt_setDrive_self, setDrive_units_length,
    setDrive_getD_drives_length, setDrive_getElem_drives_length, getD_set,
    List.length_set, setDrive_clk, map_free_track_idem, free_track_idem,
    getElem_setDrive_self,
    freed_tracks_ok _ hwf, freed_tracks_ok' _ hwf]

/-- Witness for C10: detach on unit 8 drive 1 of the 1581 bus (nothing
attached) with a D81 image argument, a format the detach switch does not
know — the check is skipped and teardown succeeds twice over. -/
theorem drive_image_detach_empty_idempotent_witness :
    (drive_image_detach true ext_ok imgD81 8 1 st1581).1 = 0 ∧
    DetachEv.detachLog ∉ (drive_image_detach true ext_ok imgD81 8 1 st1581).2.2 ∧
    DetachEv.gcrWriteback ∈ (drive_image_detach true ext_ok imgD81 8 1 st1581).2.2 ∧
    (driveAt (drive_image_detach true ext_ok imgD81 8 1 st1581).2.1
      (8 - 8) 1).detach_clk = st1581.clk.getD (8 - 8) 0 ∧
    (driveAt (drive_image_detach true ext_ok imgD81 8 1 st1581).2.1
      (8 - 8) 1).GCR_image_loaded = false ∧
    (driveAt (drive_image_detach true ext_ok imgD81 8 1 st1581).2.1
      (8 - 8) 1).P64_image_loaded = false ∧
    (driveAt (drive_image_detach true ext_ok imgD81 8 1 st1581).2.1
      (8 - 8) 1).read_only = false ∧
    (driveAt (drive_image_detach true ext_ok imgD81 8 1 st1581).2.1
      (8 - 8) 1).image = none ∧
    (∀ i, i < MAX_GCR_TRACKS →
      ((driveAt (drive_image_detach true ext_ok imgD81 8 1 st1581).2.1
        (8 - 8) 1).gcr.tracks.getD i default).data = none ∧
      ((driveAt (drive_image_detach true ext_ok imgD81 8 1 st1581).2.1
        (8 - 8) 1).gcr.tracks.getD i default).size = 0) ∧
    (drive_image_detach true ext_ok imgD81 8 1
      (drive_image_detach true ext_ok imgD81 8 1 st1581).2.1).1 = 0 ∧
    driveAt (drive_image_detach true ext_ok imgD81 8 1
        (drive_image_detach true ext_ok imgD81 8 1 st1581).2.1).2.1 (8 - 8) 1
      = driveAt (drive_image_detach true ext_ok imgD81 8 1 st1581).2.1
        (8 - 8) 1 :=
  drive_image_detach_empty_idempotent true ext_ok imgD81 8 1 st1581
    (by decide) (by decide) (by decide) (by decide) (by decide)

/-! ## Snapshot codec (vic-snapshot.c)

The snapshot primitive writers/readers (`SMW_*`/`SMR_*`) live in
`snapshot.c`, which is not among the sampled sources.  They are modelled
from the spec: an ordered stream of fixed-width little-endian primitive
fields (byte, word, doubleword, 64-bit clock) and fixed-size byte-array
blocks, with no self-describing field tags — order and width are the
contract.  The model writer cannot fail (it appends to a byte list); the
reader fails by running out of bytes. -/

/-- Modelled from the spec: write one byte. -/
def SMW_B (v : Nat) : List Nat := [v % 256]

/-- Modelled from the spec: write one little-endian 16-bit word. -/
def SMW_W (v : Nat) : List Nat := [v % 256, v / 256 % 256]

/-- Modelled from the spec: write one little-endian 32-bit doubleword. -/
def SMW_DW (v : Nat) : List Nat :=
  [v % 256, v / 256 % 256, v / 65536 % 256, v / 16777216 % 256]

/-- Modelled from the spec: write one little-endian 64-bit clock value. -/
def SMW_CLOCK (v : Nat) : List Nat :=
  [v % 256, v / 256 % 256, v / 65536 % 256, v / 16777216 % 256,
   v / 4294967296 % 256, v / 1099511627776 % 256,
   v / 281474976710656 % 256, v / 72057594037927936 % 256]

/-- Modelled from the spec: write a byte-array block. -/
def SMW_BA (vs : List Nat) : List Nat := vs.map (fun b => b % 256)

/-- Modelled from the spec: read one byte. -/
def SMR_B : List Nat → Option (Nat × List Nat)
  | [] => none
  | b :: rest => some (b, rest)

/-- Modelled from the spec: read one little-endian 16-bit word. -/
def SMR_W : List Nat → Option (Nat × List Nat)
  | b0 :: b1 :: rest => some (b0 + 256 * b1, rest)
  | _ => none

/-- Modelled from the spec: read one little-endian 32-bit doubleword. -/
def SMR_DW : List Nat → Option (Nat × List Nat)
  | b0 :: b1 :: b2 :: b3 :: rest =>
    some (b0 + 256 * b1 + 65536 * b2 + 16777216 * b3, rest)
  | _ => none

/-- Modelled from the spec: read one little-endian 64-bit clock value. -/
def SMR_CLOCK : List Nat → Option (Nat × List Nat)
  | b0 :: b1 :: b2 :: b3 :: b4 :: b5 :: b6 :: b7 :: rest =>
    some (b0 + 256 * b1 + 65536 * b2 + 16777216 * b3 + 4294967296 * b4
      + 1099511627776 * b5 + 281474976710656 * b6
      + 72057594037927936 * b7, rest)
  | _ => none

/-- Modelled from the spec: read a byte-array block of `n` bytes. -/
def SMR_BA (n : Nat) (d : List Nat) : Option (List Nat × List Nat) :=
  if n ≤ d.length then some (d.take n, d.drop n) else none

/-- The VIC-I light pen sub-state, as serialized by `vic-snapshot.c`
(C ints, modelled as Nat with width constraints in `vic_valid`). -/
structure vic_light_pen_t where
  state : Nat
  triggered : Nat
  x : Nat
  y : Nat
  x_extra_bits : Nat
  trigger_cycle : Nat
deriving DecidableEq, Repr, Inhabited

/-- The VIC-I state serialized/restored by `vic_snapshot_write_module` and
`vic_snapshot_read_module`: the `vic` struct fields the module touches,
plus the color RAM window `mem_ram[0x9400..0x97FF]` (0x400 bytes), the 16
registers, and the nested raster sub-module state (opaque bytes; the
raster module itself is outside the sampled sources). -/
structure VicState where
  interlace_enabled : Nat
  interlace_field : Nat
  framestart_cycle : Nat
  raster_cycle : Nat
  raster_line : Nat
  area : Nat
  fetch_state : Nat
  text_cols : Nat
  text_lines : Nat
  pending_text_cols : Nat
  line_was_blank : Nat
  memptr : Nat
  memptr_inc : Nat
  row_counter : Nat
  buf_offset : Nat
  light_pen : vic_light_pen_t
  vbuf : Nat
  color_ram : List Nat
  regs : List Nat
  raster : List Nat
deriving DecidableEq, Repr, Inhabited

/-- A named, versioned snapshot module record (framing done by
`snapshot_module_create`/`snapshot_module_open` in the out-of-scope
`snapshot.c`; modelled from the spec as header plus payload bytes). -/
structure snapshot_module_t where
  name : String
  major : Nat
  minor : Nat
  data : List Nat
deriving DecidableEq, Repr, Inhabited

/-- `snap_module_name` (vic-snapshot.c line 45). -/
def snap_module_name : String := "VIC-I"

/-- `SNAP_MAJOR` (vic-snapshot.c line 46). -/
def SNAP_MAJOR : Nat := 0

/-- `SNAP_MINOR` (vic-snapshot.c line 47). -/
def SNAP_MINOR : Nat := 4

/-- Modelled from the spec: `snapshot_version_is_smaller` (snapshot.c, not
in the sampled sources): strictly older means lower major, or same major
and lower minor. -/
def snapshot_version_is_smaller (maj min majr minr : Nat) : Bool :=
  maj < majr || (maj == majr && min < minr)

/-- Modelled from the spec: `vic_store` (vic-mem.c, not in the sampled
sources) stores the value into register `addr`; the read loop's own
comment assumes the store has no further side effects. -/
def vic_store (v : VicState) (addr value : Nat) : VicState :=
  { v with regs := v.regs.set addr value }

/-- Modelled from the spec: the nested raster sub-module
(raster-snapshot.c, not in the sampled sources), serialized as an opaque
length-prefixed byte block. -/
def raster_snapshot_write (raster : List Nat) : List Nat :=
  SMW_DW raster.length ++ SMW_BA raster

/-- Modelled from the spec: reader of the nested raster sub-module. -/
def raster_snapshot_read (d : List Nat) : Option (List Nat × List Nat) :=
  match SMR_DW d with
  | none => none
  | some (n, d1) => SMR_BA n d1

/-- The 16-register write loop (vic-snapshot.c lines 93-97). -/
def write_regs : List Nat → List Nat
  | [] => []
  | r :: rs => SMW_B r ++ write_regs rs

/-- The byte stream of the 23 leading scalar fields, in the exact order
`vic_snapshot_write_module` emits them (vic-snapshot.c lines 60-84). -/
def vic_fields_bytes (x : VicState) : List Nat :=
  SMW_DW x.interlace_enabled ++ SMW_DW x.interlace_field
  ++ SMW_CLOCK x.framestart_cycle ++ SMW_B x.raster_cycle
  ++ SMW_W x.raster_line ++ SMW_W x.area ++ SMW_W x.fetch_state
  ++ SMW_DW x.raster_line ++ SMW_DW x.text_cols ++ SMW_DW x.text_lines
  ++ SMW_DW x.pending_text_cols ++ SMW_DW x.line_was_blank
  ++ SMW_DW x.memptr ++ SMW_DW x.memptr_inc ++ SMW_DW x.row_counter
  ++ SMW_DW x.buf_offset ++ SMW_B x.light_pen.state
  ++ SMW_B x.light_pen.triggered ++ SMW_DW x.light_pen.x
  ++ SMW_DW x.light_pen.y ++ SMW_DW x.light_pen.x_extra_bits
  ++ SMW_CLOCK x.light_pen.trigger_cycle ++ SMW_B x.vbuf

/-- `vic_snapshot_write_module` (vic-snapshot.c lines 50-110): creates the
"VIC-I" module stamped with the current version and emits the scalar
fields, the 0x400-byte color RAM block, the 16 registers, and the nested
raster sub-module, in that order.  The modelled byte writer cannot fail,
so the C failure path (underlying writer error) does not arise. -/
def vic_snapshot_write_module (x : VicState) : snapshot_module_t :=
  { name := snap_module_name
    major := SNAP_MAJOR
    minor := SNAP_MINOR
    data := vic_fields_bytes x
      ++ (SMW_BA x.color_ram ++ (write_regs x.regs
        ++ raster_snapshot_write x.raster)) }

/-- Result of one decode step: either the updated state and remaining
bytes, or (on stream exhaustion) the partially updated state, matching
the C `goto fail` which leaves already-decoded fields in place. -/
abbrev RS := VicState × List Nat

/-- Read one byte into a field. -/
def stepB (set : VicState → Nat → VicState) :
    Except VicState RS → Except VicState RS
  | .error v => .error v
  | .ok (v, d) =>
    match SMR_B d with
    | none => .error v
    | some (w, d1) => .ok (set v w, d1)

/-- Read one word into a field. -/
def stepW (set : VicState → Nat → VicState) :
    Except VicState RS → Except VicState RS
  | .error v => .error v
  | .ok (v, d) =>
    match SMR_W d with
    | none => .error v
    | some (w, d1) => .ok (set v w, d1)

/-- Read one doubleword into a field. -/
def stepDW (set : VicState → Nat → VicState) :
    Except VicState RS → Except VicState RS
  | .error v => .error v
  | .ok (v, d) =>
    match SMR_DW d with
    | none => .error v
    | some (w, d1) => .ok (set v w, d1)

/-- Read one clock value into a field. -/
def stepCLOCK (set : VicState → Nat → VicState) :
    Except VicState RS → Except VicState RS
  | .error v => .error v
  | .ok (v, d) =>
    match SMR_CLOCK d with
    | none => .error v
    | some (w, d1) => .ok (set v w, d1)

/-- The sequential decode of the 23 scalar fields (vic-snapshot.c lines
135-160), in the exact order and widths of the C reads; note
`raster_line` is read twice (word then doubleword) just as it is written
twice. -/
def vic_read_fields (p : RS) : Except VicState RS :=
  let r := Except.ok p
  let r := stepDW (fun v w => { v with interlace_enabled := w }) r
  let r := stepDW (fun v w => { v with interlace_field := w }) r
  let r := stepCLOCK (fun v w => { v with framestart_cycle := w }) r
  let r := stepB (fun v w => { v with raster_cycle := w }) r
  let r := stepW (fun v w => { v with raster_line := w }) r
  let r := stepW (fun v w => { v with area := w }) r
  let r := stepW (fun v w => { v with fetch_state := w }) r
  let r := stepDW (fun v w => { v with raster_line := w }) r
  let r := stepDW (fun v w => { v with text_cols := w }) r
  let r := stepDW (fun v w => { v with text_lines := w }) r
  let r := stepDW (fun v w => { v with pending_text_cols := w }) r
  let r := stepDW (fun v w => { v with line_was_blank := w }) r
  let r := stepDW (fun v w => { v with memptr := w }) r
  let r := stepDW (fun v w => { v with memptr_inc := w }) r
  let r := stepDW (fun v w => { v with row_counter := w }) r
  let r := stepDW (fun v w => { v with buf_offset := w }) r
  let r := stepB (fun v w => { v with light_pen := { v.light_pen with state := w } }) r
  let r := stepB (fun v w => { v with light_pen := { v.light_pen with triggered := w } }) r
  let r := stepDW (fun v w => { v with light_pen := { v.light_pen with x := w } }) r
  let r := stepDW (fun v w => { v with light_pen := { v.light_pen with y := w } }) r
  let r := stepDW (fun v w => { v with light_pen := { v.light_pen with x_extra_bits := w } }) r
  let r := stepCLOCK (fun v w => { v with light_pen := { v.light_pen with trigger_cycle := w } }) r
  let r := stepB (fun v w => { v with vbuf := w }) r
  r

/-- The 16-register read loop (vic-snapshot.c lines 167-174): read a byte,
store it through `vic_store`, repeat. -/
def read_regs : Nat → Nat → RS → Except VicState RS
  | 0, _, p => .ok p
  | k + 1, i, p =>
    match SMR_B p.2 with
    | none => .error p.1
    | some (b, d) => read_regs k (i + 1) (vic_store p.1 i b, d)

/-- The ambient machine environment of the reader: `maincpu_clk` and the
`VIC_RASTER_CYCLE`/`VIC_RASTER_Y` macros (victypes.h, not in the sampled
sources).  Modelled from the spec: derived timing values recomputable from
the restored clock; the theorems hold for every such pair of functions. -/
structure VicEnv where
  rcOf : Nat → Nat
  ryOf : Nat → Nat
  maincpu_clk : Nat

/-- `vic_snapshot_read_module` (vic-snapshot.c lines 113-200): open the
module by name, reject strictly-older versions before any decode, decode
the scalar fields, the color RAM block and the registers, check the
restored raster position against the values recomputed from the machine
clock, then read the nested raster sub-module.  Returns the C result code
together with the (possibly partially) updated state. -/
def vic_snapshot_read_module (env : VicEnv) (vic0 : VicState)
    (m : snapshot_module_t) : Int × VicState :=
  if m.name ≠ snap_module_name then (-1, vic0)
  else if snapshot_version_is_smaller m.major m.minor SNAP_MAJOR SNAP_MINOR
  then (-1, vic0)
  else
    match vic_read_fields (vic0, m.data) with
    | .error v => (-1, v)
    | .ok (v, d) =>
      match SMR_BA 0x400 d with
      | none => (-1, v)
      | some (cr, d1) =>
        let v := { v with color_ram := cr }
        match read_regs 0x10 0 (v, d1) with
        | .error v2 => (-1, v2)
        | .ok (v2, d2) =>
          if v2.raster_cycle ≠ env.rcOf env.maincpu_clk then (-1, v2)
          else if v2.raster_line ≠ env.ryOf env.maincpu_clk then (-1, v2)
          else
            match raster_snapshot_read d2 with
            | none => (-1, v2)
            | some (r, _) => (0, { v2 with raster := r })

/-- Validity of a VIC-I state for serialization: every scalar within its
serialized width, the color RAM window exactly 0x400 bytes, exactly 0x10
registers, raster bytes in range, and the raster position consistent with
the machine clock (which the writer's machine satisfies by construction
and the reader checks). -/
def vic_valid (env : VicEnv) (x : VicState) : Prop :=
  x.interlace_enabled < 4294967296 ∧ x.interlace_field < 4294967296 ∧
  x.framestart_cycle < 18446744073709551616 ∧
  x.raster_cycle < 256 ∧ x.raster_line < 4294967296 ∧
  x.area < 65536 ∧ x.fetch_state < 65536 ∧
  x.text_cols < 4294967296 ∧ x.text_lines < 4294967296 ∧
  x.pending_text_cols < 4294967296 ∧ x.line_was_blank < 4294967296 ∧
  x.memptr < 4294967296 ∧ x.memptr_inc < 4294967296 ∧
  x.row_counter < 4294967296 ∧ x.buf_offset < 4294967296 ∧
  x.light_pen.state < 256 ∧ x.light_pen.triggered < 256 ∧
  x.light_pen.x < 4294967296 ∧ x.light_pen.y < 4294967296 ∧
  x.light_pen.x_extra_bits < 4294967296 ∧
  x.light_pen.trigger_cycle < 18446744073709551616 ∧
  x.vbuf < 256 ∧
  x.color_ram.length = 0x400 ∧ (∀ b ∈ x.color_ram, b < 256) ∧
  x.regs.length = 0x10 ∧ (∀ b ∈ x.regs, b < 256) ∧
  x.raster.length < 4294967296 ∧ (∀ b ∈ x.raster, b < 256) ∧
  x.raster_cycle = env.rcOf env.maincpu_clk ∧
  x.raster_line = env.ryOf env.maincpu_clk

instance (env : VicEnv) (x : VicState) : Decidable (vic_valid env x) := by
  unfold vic_valid; infer_instance

/-- A byte-array block of in-range bytes is written verbatim. -/
theorem SMW_BA_eq_self (l : List Nat) (h : ∀ b ∈ l, b < 256) :
    SMW_BA l = l := by
  induction l with
  | nil => rfl
  | cons b bs ih =>
    show (b % 256) :: SMW_BA bs = b :: bs
    rw [Nat.mod_eq_of_lt (h b (by simp)),
      ih (fun b' hb' => h b' (by simp [hb']))]

/-- Reading back one byte just written. -/
theorem stepB_ok (set : VicState → Nat → VicState) (v : VicState) (w : Nat)
    (r : List Nat) :
    stepB set (.ok (v, SMW_B w ++ r)) = .ok (set v (w % 256), r) := rfl

/-- Reading back one word just written. -/
theorem stepW_ok (set : VicState → Nat → VicState) (v : VicState) (w : Nat)
    (r : List Nat) :
    stepW set (.ok (v, SMW_W w ++ r)) = .ok (set v (w % 65536), r) := by
  have hw : w % 256 + 256 * (w / 256 % 256) = w % 65536 := by omega
  simp [stepW, SMW_W, SMR_W, hw]

/-- Reading back one doubleword just written. -/
theorem stepDW_ok (set : VicState → Nat → VicState) (v : VicState) (w : Nat)
    (r : List Nat) :
    stepDW set (.ok (v, SMW_DW w ++ r)) = .ok (set v (w % 4294967296), r) := by
  have hw : w % 256 + 256 * (w / 256 % 256) + 65536 * (w / 65536 % 256)
      + 16777216 * (w / 16777216 % 256) = w % 4294967296 := by omega
  simp [stepDW, SMW_DW, SMR_DW, hw]

/-- Reading back one clock value just written. -/
theorem stepCLOCK_ok (set : VicState → Nat → VicState) (v : VicState)
    (w : Nat) (r : List Nat) :
    stepCLOCK set (.ok (v, SMW_CLOCK w ++ r))
      = .ok (set v (w % 18446744073709551616), r) := by
  have hw : w % 256 + 256 * (w / 256 % 256) + 65536 * (w / 65536 % 256)
      + 16777216 * (w / 16777216 % 256)
      + 4294967296 * (w / 4294967296 % 256)
      + 1099511627776 * (w / 1099511627776 % 256)
      + 281474976710656 * (w / 281474976710656 % 256)
      + 72057594037927936 * (w / 72057594037927936 % 256)
      = w % 18446744073709551616 := by omega
  simp [stepCLOCK, SMW_CLOCK, SMR_CLOCK, hw]

/-- Reading back one doubleword just written (bare reader form). -/
theorem SMR_DW_append (w : Nat) (r : List Nat) :
    SMR_DW (SMW_DW w ++ r) = some (w % 4294967296, r) := by
  have hw : w % 256 + 256 * (w / 256 % 256) + 65536 * (w / 65536 % 256)
      + 16777216 * (w / 16777216 % 256) = w % 4294967296 := by omega
  simp [SMW_DW, SMR_DW, hw]

/-- Reading back a byte-array block of the right length. -/
theorem SMR_BA_append (n : Nat) (l r : List Nat) (h : l.length = n) :
    SMR_BA n (l ++ r) = some (l, r) := by
  subst h
  unfold SMR_BA
  rw [if_pos (by simp), List.take_left, List.drop_left]

/-- Reading back a byte-array block that is the whole remaining stream. -/
theorem SMR_BA_exact (l : List Nat) : SMR_BA l.length l = some (l, []) := by
  unfold SMR_BA
  rw [if_pos (Nat.le_refl _), List.take_length, List.drop_length]

/-- The 23-field decode inverts the 23-field encode on a valid state:
each field comes back bit-exactly and the state is unchanged (each decoded
value is stored over itself). -/
theorem vic_read_fields_write (env : VicEnv) (x : VicState)
    (rest : List Nat) (h : vic_valid env x) :
    vic_read_fields (x, vic_fields_bytes x ++ rest) = .ok (x, rest) := by
  obtain ⟨h1, h2, h3, h4, h5, h6, h7, h8, h9, h10, h11, h12, h13, h14, h15,
    h16, h17, h18, h19, h20, h21, h22, -⟩ := h
  unfold vic_read_fields vic_fields_bytes
  simp only [List.append_assoc]
  simp only [stepB_ok, stepW_ok, stepDW_ok, stepCLOCK_ok,
    Nat.mod_eq_of_lt h1, Nat.mod_eq_of_lt h2, Nat.mod_eq_of_lt h3,
    Nat.mod_eq_of_lt h4, Nat.mod_eq_of_lt h5, Nat.mod_eq_of_lt h6,
    Nat.mod_eq_of_lt h7, Nat.mod_eq_of_lt h8, Nat.mod_eq_of_lt h9,
    Nat.mod_eq_of_lt h10, Nat.mod_eq_of_lt h11, Nat.mod_eq_of_lt h12,
    Nat.mod_eq_of_lt h13, Nat.mod_eq_of_lt h14, Nat.mod_eq_of_lt h15,
    Nat.mod_eq_of_lt h16, Nat.mod_eq_of_lt h17, Nat.mod_eq_of_lt h18,
    Nat.mod_eq_of_lt h19, Nat.mod_eq_of_lt h20, Nat.mod_eq_of_lt h21,
    Nat.mod_eq_of_lt h22]

/-- Writing an element's own value back (option form). -/
theorem set_getElem?_self {α : Type} (l : List α) (i : Nat) (a : α)
    (h : l[i]? = some a) : l.set i a = l := by
  induction l generalizing i with
  | nil => simp at h
  | cons x xs ih =>
    cases i with
    | zero =>
      simp only [List.getElem?_cons_zero, Option.some.injEq] at h
      simp [h]
    | succ i =>
      simp only [List.getElem?_cons_succ] at h
      show x :: xs.set i a = x :: xs
      rw [ih i h]

/-- The register read loop inverts the register write loop when the bytes
being read back are the state's own register values. -/
theorem read_regs_write (rs : List Nat) (i : Nat) (v : VicState)
    (rest : List Nat)
    (hvals : ∀ j (hj : j < rs.length), v.regs[i + j]? = some (rs.get ⟨j, hj⟩))
    (hlt : ∀ b ∈ rs, b < 256) :
    read_regs rs.length i (v, write_regs rs ++ rest) = .ok (v, rest) := by
  induction rs generalizing i v with
  | nil => simp [read_regs, write_regs]
  | cons b bs ih =>
    have hb : b % 256 = b := Nat.mod_eq_of_lt (hlt b (by simp))
    have h0 : v.regs[i]? = some b := by
      have hj := hvals 0 (by simp)
      simpa using hj
    have hv : vic_store v i b = v := by
      unfold vic_store
      rw [set_getElem?_self _ _ _ h0]
    show read_regs (bs.length + 1) i (v, (SMW_B b ++ write_regs bs) ++ rest) = _
    simp only [SMW_B, hb, List.cons_append, read_regs, SMR_B, hv]
    exact ih (i + 1) v
      (fun j hj => by
        have hj1 := hvals (j + 1) (by simpa using Nat.succ_lt_succ hj)
        rw [show i + (j + 1) = i + 1 + j by omega] at hj1
        simpa using hj1)
      (fun b' hb' => hlt b' (by simp [hb']))

/-- Master round-trip: reading the module just written restores exactly
the written state and succeeds. -/
theorem vic_roundtrip_aux (env : VicEnv) (x : VicState)
    (h : vic_valid env x) :
    vic_snapshot_read_module env x (vic_snapshot_write_module x) = (0, x) := by
  have h' := h
  obtain ⟨-, -, -, -, -, -, -, -, -, -, -, -, -, -, -, -, -, -, -, -, -, -,
    hcrl, hcrb, hregl, hregb, hrasl, hrasb, hrc, hry⟩ := h'
  unfold vic_snapshot_read_module vic_snapshot_write_module
  rw [if_neg (by simp), if_neg (by simp [snapshot_version_is_smaller,
    SNAP_MAJOR, SNAP_MINOR])]
  rw [show (snapshot_module_t.mk snap_module_name SNAP_MAJOR SNAP_MINOR
      (vic_fields_bytes x ++ (SMW_BA x.color_ram ++ (write_regs x.regs
        ++ raster_snapshot_write x.raster)))).data
    = vic_fields_bytes x ++ (SMW_BA x.color_ram ++ (write_regs x.regs
        ++ raster_snapshot_write x.raster)) from rfl]
  rw [vic_read_fields_write env x _ h]
  show (match SMR_BA 0x400 (SMW_BA x.color_ram ++ (write_regs x.regs
      ++ raster_snapshot_write x.raster)) with
    | none => ((-1 : Int), x)
    | some (cr, d1) =>
      match read_regs 0x10 0 ({ x with color_ram := cr }, d1) with
      | .error v2 => (-1, v2)
      | .ok (v2, d2) =>
        if v2.raster_cycle ≠ env.rcOf env.maincpu_clk then (-1, v2)
        else if v2.raster_line ≠ env.ryOf env.maincpu_clk then (-1, v2)
        else
          match raster_snapshot_read d2 with
          | none => (-1, v2)
          | some (r, _) => (0, { v2 with raster := r })) = (0, x)
  rw [SMW_BA_eq_self x.color_ram hcrb,
    SMR_BA_append 0x400 x.color_ram _ hcrl]
  show (match read_regs 0x10 0 (x, write_regs x.regs
      ++ raster_snapshot_write x.raster) with
    | .error v2 => ((-1 : Int), v2)
    | .ok (v2, d2) =>
      if v2.raster_cycle ≠ env.rcOf env.maincpu_clk then (-1, v2)
      else if v2.raster_line ≠ env.ryOf env.maincpu_clk then (-1, v2)
      else
        match raster_snapshot_read d2 with
        | none => (-1, v2)
        | some (r, _) => (0, { v2 with raster := r })) = (0, x)
  rw [show (0x10 : Nat) = x.regs.length from hregl.symm]
  rw [read_regs_write x.regs 0 x _
    (fun j hj => by
      rw [Nat.zero_add]
      simp [List.getElem?_eq_getElem hj, List.get_eq_getElem])
    hregb]
  show (if x.raster_cycle ≠ env.rcOf env.maincpu_clk then ((-1 : Int), x)
    else if x.raster_line ≠ env.ryOf env.maincpu_clk then (-1, x)
    else
      match raster_snapshot_read (raster_snapshot_write x.raster) with
      | none => (-1, x)
      | some (r, _) => (0, { x with raster := r })) = (0, x)
  rw [if_neg (by simp [hrc]), if_neg (by simp [hry])]
  unfold raster_snapshot_read raster_snapshot_write
  rw [SMW_BA_eq_self x.raster hrasb, SMR_DW_append,
    Nat.mod_eq_of_lt hrasl]
  show (match SMR_BA x.raster.length x.raster with
    | none => ((-1 : Int), x)
    | some (r, _) => (0, { x with raster := r })) = (0, x)
  rw [SMR_BA_exact]

/-- Field kinds of the snapshot wire format (widths per the spec schema). -/
inductive FieldKind where
  | fB
  | fW
  | fDW
  | fCLK
  | fBA (n : Nat)
  | fRasterSub
deriving DecidableEq, Repr

/-- Field values as emitted by the writer, used to state that the module
bytes are exactly the schema-ordered concatenation of field encodings. -/
inductive FieldVal where
  | vB (v : Nat)
  | vW (v : Nat)
  | vDW (v : Nat)
  | vCLK (v : Nat)
  | vBA (vs : List Nat)
  | vRasterSub (vs : List Nat)
deriving DecidableEq, Repr

/-- The kind (width) of a field value. -/
def fieldKind : FieldVal → FieldKind
  | .vB _ => .fB
  | .vW _ => .fW
  | .vDW _ => .fDW
  | .vCLK _ => .fCLK
  | .vBA vs => .fBA vs.length
  | .vRasterSub _ => .fRasterSub

/-- Byte encoding of one field. -/
def encodeField : FieldVal → List Nat
  | .vB v => SMW_B v
  | .vW v => SMW_W v
  | .vDW v => SMW_DW v
  | .vCLK v => SMW_CLOCK v
  | .vBA vs => SMW_BA vs
  | .vRasterSub vs => raster_snapshot_write vs

/-- Byte encoding of an ordered field list. -/
def encodeFields : List FieldVal → List Nat
  | [] => []
  | f :: fs => encodeField f ++ encodeFields fs

/-- The ordered field values of the VIC-I module for a given state,
following vic-snapshot.c lines 60-101 top to bottom. -/
def vic_module_fields (x : VicState) : List FieldVal :=
  [.vDW x.interlace_enabled, .vDW x.interlace_field,
   .vCLK x.framestart_cycle, .vB x.raster_cycle, .vW x.raster_line,
   .vW x.area, .vW x.fetch_state, .vDW x.raster_line, .vDW x.text_cols,
   .vDW x.text_lines, .vDW x.pending_text_cols, .vDW x.line_was_blank,
   .vDW x.memptr, .vDW x.memptr_inc, .vDW x.row_counter, .vDW x.buf_offset,
   .vB x.light_pen.state, .vB x.light_pen.triggered, .vDW x.light_pen.x,
   .vDW x.light_pen.y, .vDW x.light_pen.x_extra_bits,
   .vCLK x.light_pen.trigger_cycle, .vB x.vbuf, .vBA x.color_ram]
  ++ x.regs.map FieldVal.vB ++ [.vRasterSub x.raster]

/-- The schema the code actually implements: note NINE uint32 fields
between the three uint16 fields and the two uint8 light-pen flags. -/
def vic_module_schema : List FieldKind :=
  [FieldKind.fDW, FieldKind.fDW, FieldKind.fCLK, FieldKind.fB,
   FieldKind.fW, FieldKind.fW, FieldKind.fW]
  ++ List.replicate 9 FieldKind.fDW
  ++ [FieldKind.fB, FieldKind.fB]
  ++ List.replicate 3 FieldKind.fDW
  ++ [FieldKind.fCLK, FieldKind.fB, FieldKind.fBA 0x400]
  ++ List.replicate 16 FieldKind.fB
  ++ [FieldKind.fRasterSub]

/-- The schema exactly as claim C7 states it (spec side): EIGHT uint32
fields in the middle group. -/
def spec_schema : List FieldKind :=
  [FieldKind.fDW, FieldKind.fDW, FieldKind.fCLK, FieldKind.fB,
   FieldKind.fW, FieldKind.fW, FieldKind.fW]
  ++ List.replicate 8 FieldKind.fDW
  ++ [FieldKind.fB, FieldKind.fB]
  ++ List.replicate 3 FieldKind.fDW
  ++ [FieldKind.fCLK, FieldKind.fB, FieldKind.fBA 0x400]
  ++ List.replicate 16 FieldKind.fB
  ++ [FieldKind.fRasterSub]

/-- Total byte length a schema demands (the raster sub-module's length
depends on the raster payload length). -/
def schemaLen (rasterLen : Nat) : List FieldKind → Nat
  | [] => 0
  | k :: ks =>
    (match k with
     | .fB => 1
     | .fW => 2
     | .fDW => 4
     | .fCLK => 8
     | .fBA n => n
     | .fRasterSub => 4 + rasterLen) + schemaLen rasterLen ks

/-- `encodeFields` distributes over append. -/
theorem encodeFields_append (a b : List FieldVal) :
    encodeFields (a ++ b) = encodeFields a ++ encodeFields b := by
  induction a with
  | nil => rfl
  | cons f fs ih => simp [encodeFields, ih, List.append_assoc]

/-- The register byte loop is the encoding of 16 byte fields. -/
theorem encodeFields_map_vB (rs : List Nat) :
    encodeFields (rs.map FieldVal.vB) = write_regs rs := by
  induction rs with
  | nil => rfl
  | cons r rst ih => simp [encodeFields, write_regs, encodeField, ih]

/-- The register byte loop emits one byte per register. -/
theorem write_regs_length (rs : List Nat) :
    (write_regs rs).length = rs.length := by
  induction rs with
  | nil => rfl
  | cons r t ih => simp [write_regs, SMW_B, ih]

/-- The register fields all have byte kind. -/
theorem map_fieldKind_vB (rs : List Nat) :
    (rs.map FieldVal.vB).map fieldKind
      = List.replicate rs.length FieldKind.fB := by
  induction rs with
  | nil => rfl
  | cons r rst ih => simp [List.replicate, ih, fieldKind]

/-- C4: snapshot round trip: writing the VIC-I module from a valid state
and reading it back restores exactly that state, field for field, and the
read succeeds (`read(write(x)) = (0, x)`), for arbitrary valid values of
each field's domain. -/
theorem vic_snapshot_roundtrip (env : VicEnv) (x : VicState)
    (h : vic_valid env x) :
    vic_snapshot_read_module env x (vic_snapshot_write_module x) = (0, x) :=
  vic_roundtrip_aux env x h

/-- A concrete machine environment: raster position 0 at clock 0. -/
def env0 : VicEnv := ⟨fun _ => 0, fun _ => 0, 0⟩

/-- A concrete valid VIC state for the snapshot witnesses. -/
def vic0ex : VicState :=
  { interlace_enabled := 0, interlace_field := 1, framestart_cycle := 2,
    raster_cycle := 0, raster_line := 0, area := 3, fetch_state := 4,
    text_cols := 22, text_lines := 23, pending_text_cols := 22,
    line_was_blank := 1, memptr := 5, memptr_inc := 6, row_counter := 7,
    buf_offset := 8, light_pen := ⟨1, 0, 9, 10, 11, 12⟩, vbuf := 13,
    color_ram := List.replicate 0x400 0, regs := List.replicate 0x10 7,
    raster := [1, 2, 3] }

/-- The concrete state is valid for the concrete environment. -/
theorem vic0ex_valid : vic_valid env0 vic0ex := by
  unfold vic_valid env0 vic0ex
  norm_num [List.mem_replicate]

/-- Witness for C4 at the concrete state and environment. -/
theorem vic_snapshot_roundtrip_witness :
    vic_snapshot_read_module env0 vic0ex
      (vic_snapshot_write_module vic0ex) = (0, vic0ex) :=
  vic_snapshot_roundtrip env0 vic0ex vic0ex_valid

/-- C5: the version gate: a module stamped strictly older than the
reader's expected version makes `vic_snapshot_read_module` fail with -1
and leave the destination VIC state untouched — the gate runs before any
field is decoded. -/
theorem vic_snapshot_read_version_gate (env : VicEnv) (vic0 : VicState)
    (m : snapshot_module_t)
    (h : snapshot_version_is_smaller m.major m.minor SNAP_MAJOR SNAP_MINOR
      = true) :
    vic_snapshot_read_module env vic0 m = (-1, vic0) := by
  unfold vic_snapshot_read_module
  by_cases hn : m.name ≠ snap_module_name
  · rw [if_pos hn]
  · rw [if_neg hn, if_pos h]

/-- A module stamped 0.3, older than the expected 0.4. -/
def m_old : snapshot_module_t := ⟨"VIC-I", 0, 3, []⟩

/-- Witness for C5: reading the 0.3-stamped module fails and returns the
destination state unchanged. -/
theorem vic_snapshot_read_version_gate_witness :
    vic_snapshot_read_module env0 vic0ex m_old = (-1, vic0ex) :=
  vic_snapshot_read_version_gate env0 vic0ex m_old (by decide)

/-- C8: the reader returns 0 or -1, and whenever it succeeds the restored
`raster_cycle` and `raster_line` equal the values recomputed from the
machine clock via the `VIC_RASTER_CYCLE`/`VIC_RASTER_Y` macros — a
snapshot whose stored values differ from the recomputed ones can never be
accepted. -/
theorem vic_snapshot_read_consistency (env : VicEnv) (vic0 : VicState)
    (m : snapshot_module_t) :
    ((vic_snapshot_read_module env vic0 m).1 = 0
      ∨ (vic_snapshot_read_module env vic0 m).1 = -1) ∧
    ((vic_snapshot_read_module env vic0 m).1 = 0 →
      (vic_snapshot_read_module env vic0 m).2.raster_cycle
          = env.rcOf env.maincpu_clk ∧
        (vic_snapshot_read_module env vic0 m).2.raster_line
          = env.ryOf env.maincpu_clk) := by
  unfold vic_snapshot_read_module
  repeat' split
  all_goals try simp_all
  all_goals repeat' split
  all_goals simp_all

/-- Witness for C8: on the concrete successful restore, the recomputed
raster position matches the restored one. -/
theorem vic_snapshot_read_consistency_witness :
    (vic_snapshot_read_module env0 vic0ex
        (vic_snapshot_write_module vic0ex)).2.raster_cycle
      = env0.rcOf env0.maincpu_clk ∧
    (vic_snapshot_read_module env0 vic0ex
        (vic_snapshot_write_module vic0ex)).2.raster_line
      = env0.ryOf env0.maincpu_clk :=
  (vic_snapshot_read_consistency env0 vic0ex
    (vic_snapshot_write_module vic0ex)).2
    (by rw [vic_roundtrip_aux env0 vic0ex vic0ex_valid])

/-- The module's field kinds are exactly the nine-uint32 schema. -/
theorem vic_module_fields_kinds (x : VicState)
    (hcrl : x.color_ram.length = 0x400) (hregl : x.regs.length = 0x10) :
    (vic_module_fields x).map fieldKind = vic_module_schema := by
  unfold vic_module_fields vic_module_schema
  rw [List.map_append, List.map_append, map_fieldKind_vB, hregl]
  simp [fieldKind, hcrl, List.replicate]

/-- C7 counterexample: the module's field kinds do not match the schema
claimed in the spec (8 uint32 fields in the middle group) — the writer
emits 9 — and consequently the emitted byte count differs from what the
claimed schema demands. -/
theorem vic_snapshot_write_schema_cex :
    (vic_module_fields vic0ex).map fieldKind ≠ spec_schema ∧
    (vic_snapshot_write_module vic0ex).data.length
      ≠ schemaLen vic0ex.raster.length spec_schema := by
  constructor
  · rw [vic_module_fields_kinds vic0ex (by simp [vic0ex]) (by simp [vic0ex])]
    decide
  · have hlen : (vic_snapshot_write_module vic0ex).data.length = 1129 := by
      simp [vic_snapshot_write_module, vic_fields_bytes, vic0ex,
        SMW_B, SMW_W, SMW_DW, SMW_CLOCK, SMW_BA, raster_snapshot_write,
        write_regs_length]
    rw [hlen]
    decide

/-- C7 amended: the writer emits exactly the schema-ordered encodings of
the module's fields — 2 uint32, 1 clock, 1 uint8, 3 uint16, NINE uint32,
2 uint8, 3 int32 (written as uint32 casts), 1 clock, 1 uint8, the
0x400-byte block, 16 uint8 registers, and the nested raster sub-module —
and the reader reads them back in the same order with identical widths
(exact round trip). -/
theorem vic_snapshot_write_schema (env : VicEnv) (x : VicState)
    (h : vic_valid env x) :
    (vic_snapshot_write_module x).data = encodeFields (vic_module_fields x) ∧
    (vic_module_fields x).map fieldKind = vic_module_schema ∧
    vic_snapshot_read_module env x (vic_snapshot_write_module x) = (0, x) := by
  have h' := h
  obtain ⟨-, -, -, -, -, -, -, -, -, -, -, -, -, -, -, -, -, -, -, -, -, -,
    hcrl, -, hregl, -, -, -, -, -⟩ := h'
  refine ⟨?_, ?_, vic_roundtrip_aux env x h⟩
  · unfold vic_snapshot_write_module vic_module_fields vic_fields_bytes
    rw [encodeFields_append, encodeFields_append, encodeFields_map_vB]
    simp [encodeFields, encodeField, List.append_assoc]
  · exact vic_module_fields_kinds x hcrl hregl

/-- Witness for the amended C7 at the concrete state. -/
theorem vic_snapshot_write_schema_witness :
    (vic_module_fields vic0ex).map fieldKind = vic_module_schema ∧
    vic_snapshot_read_module env0 vic0ex
      (vic_snapshot_write_module vic0ex) = (0, vic0ex) :=
  ⟨(vic_snapshot_write_schema env0 vic0ex vic0ex_valid).2.1,
    (vic_snapshot_write_schema env0 vic0ex vic0ex_valid).2.2⟩

end Vice
